import Mathlib

/-!
Verification of the PHRASE-BRIDGE translation application.

This file shallowly embeds the language registry (`language_codes.py`),
the translation service (`translator.py`) and the file-export fragment of
the GUI (`gui.py`) as executable Lean definitions, and proves the specified
testable properties about them.
-/

namespace PhraseBridge

/-! ## Language registry (`language_codes.py`)

The Python module holds an insertion-ordered dict from display names to
ISO codes.  We embed it as an association list in declaration order,
which matches dict key-lookup (`.get`) and iteration semantics, since
the keys are unique.
-/

/-- The `LANGUAGES` dict of `language_codes.py`, in declaration order. -/
def LANGUAGES : List (String × String) :=
  [ ("Auto Detect", "auto"),
    ("English", "en"),
    ("Spanish", "es"),
    ("French", "fr"),
    ("German", "de"),
    ("Italian", "it"),
    ("Portuguese", "pt"),
    ("Russian", "ru"),
    ("Chinese (Simplified)", "zh-cn"),
    ("Chinese (Traditional)", "zh-tw"),
    ("Japanese", "ja"),
    ("Korean", "ko"),
    ("Arabic", "ar"),
    ("Hindi", "hi"),
    ("Dutch", "nl"),
    ("Polish", "pl"),
    ("Turkish", "tr"),
    ("Swedish", "sv"),
    ("Norwegian", "no"),
    ("Danish", "da"),
    ("Finnish", "fi"),
    ("Greek", "el"),
    ("Hebrew", "he"),
    ("Thai", "th"),
    ("Vietnamese", "vi"),
    ("Indonesian", "id"),
    ("Malay", "ms"),
    ("Czech", "cs"),
    ("Hungarian", "hu"),
    ("Romanian", "ro"),
    ("Bulgarian", "bg"),
    ("Croatian", "hr"),
    ("Slovak", "sk"),
    ("Slovenian", "sl"),
    ("Estonian", "et"),
    ("Latvian", "lv"),
    ("Lithuanian", "lt"),
    ("Ukrainian", "uk"),
    ("Bengali", "bn"),
    ("Tamil", "ta"),
    ("Telugu", "te"),
    ("Gujarati", "gu"),
    ("Marathi", "mr"),
    ("Punjabi", "pa"),
    ("Urdu", "ur"),
    ("Persian", "fa"),
    ("Swahili", "sw"),
    ("Afrikaans", "af"),
    ("Albanian", "sq"),
    ("Armenian", "hy"),
    ("Azerbaijani", "az"),
    ("Basque", "eu"),
    ("Belarusian", "be"),
    ("Bosnian", "bs"),
    ("Catalan", "ca"),
    ("Filipino", "tl"),
    ("Galician", "gl"),
    ("Georgian", "ka"),
    ("Icelandic", "is"),
    ("Irish", "ga"),
    ("Kazakh", "kk"),
    ("Kurdish", "ku"),
    ("Kyrgyz", "ky"),
    ("Latin", "la"),
    ("Luxembourgish", "lb"),
    ("Macedonian", "mk"),
    ("Maltese", "mt"),
    ("Mongolian", "mn"),
    ("Nepali", "ne"),
    ("Pashto", "ps"),
    ("Serbian", "sr"),
    ("Sinhala", "si"),
    ("Tajik", "tg"),
    ("Uzbek", "uz"),
    ("Welsh", "cy"),
    ("Yiddish", "yi") ]

/-- Lexicographic ≤ on code-point sequences: the string comparison of
Python, which its sort builtin uses. -/
def lexLeChars : List Char → List Char → Bool
  | [], _ => true
  | _ :: _, [] => false
  | a :: as, b :: bs =>
    if a.toNat < b.toNat then true
    else if b.toNat < a.toNat then false
    else lexLeChars as bs

/-- The Python string comparison, lexicographic by code point. -/
def strLe (a b : String) : Bool :=
  lexLeChars a.data b.data

/-- Insert a string into an already `strLe`-sorted list, keeping it
sorted.  Helper for `get_language_names`. -/
def insertSorted (s : String) : List String → List String
  | [] => [s]
  | t :: ts => if strLe s t then s :: t :: ts else t :: insertSorted s ts

/-- Insertion sort on strings, modelling the Python sort builtin. -/
def sortStrings (l : List String) : List String :=
  l.foldr insertSorted []

/-- Embeds `get_language_names` of `language_codes.py`, which returns
the sorted list of `LANGUAGES` keys. -/
def get_language_names : List String :=
  sortStrings (LANGUAGES.map Prod.fst)

/-- Embeds `get_language_code` of `language_codes.py`: keyed dict lookup
with fallback code en, exact and case sensitive. -/
def get_language_code (language_name : String) : String :=
  match LANGUAGES.find? (fun p => p.1 = language_name) with
  | some p => p.2
  | none => "en"

/-- Embeds `get_language_name` of `language_codes.py`: iterate the
`LANGUAGES` items in declaration order, return the first name whose code
matches, else the fallback name English. -/
def get_language_name (language_code : String) : String :=
  match LANGUAGES.find? (fun p => p.2 = language_code) with
  | some p => p.1
  | none => "English"

/-- The target-language combobox values built in
`TranslationApp.create_widgets` (`gui.py`):
`[lang for lang in get_language_names() if lang != "Auto Detect"]`. -/
def target_language_values : List String :=
  get_language_names.filter (fun lang => lang ≠ "Auto Detect")

/-! ## Translation service (`translator.py`)

`TranslationService.translate_text` validates its input, short-circuits
identity translation, otherwise makes exactly one backend call
(`self.translator.translate(...)`) and classifies backend exceptions by
class first (the ordered `except` clauses) and then by lowercase message
substrings.  We embed the backend as a function that either returns the
translated text or raises a Python exception, an insertion-ordered sum
of the classes the `except` chain distinguishes.
-/

/-- A Python exception as distinguished by the handler chain of
`translate_text`:
`requests.exceptions.ConnectionError`, `requests.exceptions.Timeout`,
`requests.exceptions.HTTPError`, or any other `Exception`.  Each carries
its `str(e)` message. -/
inductive PyExc where
  | connectionError (msg : String)
  | timeoutExc (msg : String)
  | httpError (msg : String)
  | otherExc (msg : String)
deriving DecidableEq, Repr

/-- The message of a backend exception, in Python the string form of the
exception object. -/
def PyExc.message : PyExc → String
  | .connectionError m => m
  | .timeoutExc m => m
  | .httpError m => m
  | .otherExc m => m

/-- The translation backend (`googletrans.Translator.translate`), a black
box taking `(text, src, dest)` and either returning the translated text
(`result.text`) or raising an exception. -/
def Backend := String → String → String → Except PyExc String

/-- The error taxonomy of the spec (§7); each kind names one distinct
`return None, message` site of `translator.py`. -/
inductive ErrorKind where
  | InvalidInput
  | NetworkError
  | TimeoutError
  | BackendError
  | RateLimited
  | AccessDenied
  | Unavailable
  | UnknownError
deriving DecidableEq, Repr

/-- Result of `translate_text`, as the specified tagged union; the
message field keeps the exact error string the Python code returns. -/
inductive TransResult where
  | success (text : String)
  | failure (kind : ErrorKind) (message : String)
deriving DecidableEq, Repr

/-- Whether the result is a failure of the given kind. -/
def TransResult.isFailureOfKind : TransResult → ErrorKind → Bool
  | .success _, _ => false
  | .failure k _, kind => k = kind

/-- The raw Python return value: `translate_text` returns the pair
`(translated_text, error_message)` with `None` as `Option.none`. -/
def TransResult.toPair : TransResult → Option String × Option String
  | .success t => (some t, none)
  | .failure _ m => (none, some m)

/-! Python string-method semantics, modelled directly on the code-point
sequence of a string (`String.data`); Python strings are code-point
sequences, so these are the faithful embedding of its builtins. -/

/-- Whether a code point is Python whitespace, the set the string strip
method removes: tab through carriage return (9 to 13), the file, group,
record and unit separators (28 to 31), space, next line (133), no-break
space (160), ogham space mark (5760), the fixed-width spaces 8192 to
8202, line separator (8232), paragraph separator (8233), narrow
no-break space (8239), medium mathematical space (8287), and
ideographic space (12288). -/
def isPySpace (c : Char) : Bool :=
  let n := c.toNat
  (9 ≤ n && n ≤ 13) || (28 ≤ n && n ≤ 32) || n = 133 || n = 160 ||
    n = 5760 || (8192 ≤ n && n ≤ 8202) || n = 8232 || n = 8233 ||
    n = 8239 || n = 8287 || n = 12288

/-- The Python string strip method: drop leading and trailing
whitespace. -/
def pyStrip (s : String) : String :=
  String.mk (((s.data.dropWhile isPySpace).reverse.dropWhile isPySpace).reverse)

/-- The Python len builtin on strings: the number of code points. -/
def pyLen (s : String) : Nat :=
  s.data.length

/-- The Python truthiness test on strings: a string is falsy iff it is
empty. -/
def pyIsEmpty (s : String) : Bool :=
  s.data.isEmpty

/-- The Python lower method on one code point (ASCII letters; enough
for the ASCII patterns the classifier matches). -/
def pyLowerChar (c : Char) : Char :=
  if 65 ≤ c.toNat && c.toNat ≤ 90 then Char.ofNat (c.toNat + 32) else c

/-- The Python lower method on strings. -/
def pyLower (s : String) : String :=
  String.mk (s.data.map pyLowerChar)

/-- Whether the first list is an initial segment of the second. -/
def startsWithChars : List Char → List Char → Bool
  | [], _ => true
  | _ :: _, [] => false
  | a :: as, b :: bs => a.toNat = b.toNat && startsWithChars as bs

/-- Whether the pattern occurs as a contiguous run in the list. -/
def containsSubChars (pat : List Char) : List Char → Bool
  | [] => pat.isEmpty
  | c :: rest => startsWithChars pat (c :: rest) || containsSubChars pat rest

/-- The Python substring containment test (the in operator). -/
def strContainsSub (s pat : String) : Bool :=
  containsSubChars pat.data s.data

/-- Split a code-point sequence at newlines, keeping empty segments:
the lines of a file. -/
def splitLinesChars : List Char → List (List Char)
  | [] => [[]]
  | c :: rest =>
    let acc := splitLinesChars rest
    if c.toNat = 10 then [] :: acc
    else
      match acc with
      | [] => [[c]]
      | cur :: tail => (c :: cur) :: tail

/-- The lines of a string, splitting at every newline. -/
def pyLines (s : String) : List String :=
  (splitLinesChars s.data).map String.mk

/-- Character limit for translation, set to 5000 in the service
constructor. -/
def max_chars : Nat := 5000

/-- The `except` chain of `translate_text`: class-based handlers in
declaration order (`ConnectionError`, `Timeout`, `HTTPError`), then the
generic `except Exception` handler matching lowercase message substrings
(`"429"`/`"too many requests"`, then `"403"`/`"forbidden"`, then
`"service unavailable"`), falling through to the generic failure whose
message embeds `str(e)`. -/
def classify_exception (e : PyExc) : ErrorKind × String :=
  match e with
  | .connectionError _ =>
      (.NetworkError, "Network error: Please check your internet connection")
  | .timeoutExc _ =>
      (.TimeoutError, "Translation timeout: Please try again")
  | .httpError m =>
      (.BackendError, "Translation service error: " ++ m)
  | .otherExc m =>
      let error_msg := pyLower m
      if strContainsSub error_msg "429" || strContainsSub error_msg "too many requests" then
        (.RateLimited, "Rate limit exceeded: Please wait a moment and try again")
      else if strContainsSub error_msg "403" || strContainsSub error_msg "forbidden" then
        (.AccessDenied, "Translation service access denied: Please check your connection")
      else if strContainsSub error_msg "service unavailable" then
        (.Unavailable, "Translation service temporarily unavailable")
      else
        (.UnknownError, "Translation failed: " ++ m)

/-- Embeds `TranslationService.translate_text`.
Besides the result we return how many times the backend was invoked
(0 or 1), the call counter a fake backend would observe. -/
def translate_text (backend : Backend) (text : String)
    (source_lang target_lang : String) :
    TransResult × Nat :=
  if pyIsEmpty text || pyIsEmpty (pyStrip text) then
    (.failure .InvalidInput "Please enter text to translate", 0)
  else if pyLen text > max_chars then
    (.failure .InvalidInput
      ("Text too long. Maximum " ++ toString max_chars ++ " characters allowed."), 0)
  else if source_lang = target_lang ∧ source_lang ≠ "auto" then
    (.success text, 0)
  else
    match backend text source_lang target_lang with
    | .ok result => (.success result, 1)
    | .error e =>
        let c := classify_exception e
        (.failure c.1 c.2, 1)

/-- Embeds `TranslationService.is_service_available`: canary-translate
`"test"` from `"en"` to `"es"`; `True` iff a (non-`None`) result came
back, `False` on any exception. -/
def is_service_available (backend : Backend) : Bool :=
  match backend "test" "en" "es" with
  | .ok _ => true
  | .error _ => false

/-! ## File export (`gui.py`, `TranslationApp.save_translation`) -/

/-- The exact file content written by `save_translation` in `gui.py`:
the concatenation of its six write calls, with the separator format
string expanded (one equals sign plus thirty more). -/
def saved_translation_text (source_lang target_lang source_text translation : String) :
    String :=
  "Phrase Bridge Translation\n" ++
  ("=" ++ String.mk (List.replicate 30 (Char.ofNat 61)) ++ "\n\n") ++
  ("Source Language: " ++ source_lang ++ "\n") ++
  ("Target Language: " ++ target_lang ++ "\n\n") ++
  ("Original Text:\n" ++ source_text ++ "\n\n") ++
  ("Translation:\n" ++ translation ++ "\n")

/-! ## Ordered rule-list view of the exception classification (spec §9) -/

/-- Whether the exception is a `requests.exceptions.ConnectionError`. -/
def isConnectionError : PyExc → Bool
  | .connectionError _ => true
  | _ => false

/-- Whether the exception is a `requests.exceptions.Timeout`. -/
def isTimeoutExc : PyExc → Bool
  | .timeoutExc _ => true
  | _ => false

/-- Whether the exception is a `requests.exceptions.HTTPError`. -/
def isHttpError : PyExc → Bool
  | .httpError _ => true
  | _ => false

/-- Whether the lowercased message matches the rate-limit substrings. -/
def msgHasRateLimitText (e : PyExc) : Bool :=
  strContainsSub (pyLower e.message) "429" ||
    strContainsSub (pyLower e.message) "too many requests"

/-- Whether the lowercased message matches the access-denied substrings. -/
def msgHasAccessDeniedText (e : PyExc) : Bool :=
  strContainsSub (pyLower e.message) "403" ||
    strContainsSub (pyLower e.message) "forbidden"

/-- Whether the lowercased message matches the unavailability substring. -/
def msgHasUnavailableText (e : PyExc) : Bool :=
  strContainsSub (pyLower e.message) "service unavailable"

/-- The ordered `(predicate, ErrorKind)` rule list the spec describes:
class-based rules first, then the message-substring rules, in the order
the code checks them. -/
def errorRules : List ((PyExc → Bool) × ErrorKind) :=
  [ (isConnectionError, .NetworkError),
    (isTimeoutExc, .TimeoutError),
    (isHttpError, .BackendError),
    (msgHasRateLimitText, .RateLimited),
    (msgHasAccessDeniedText, .AccessDenied),
    (msgHasUnavailableText, .Unavailable) ]

/-- Evaluate an ordered rule list top-to-bottom: the first rule whose
predicate holds wins; fall through to the fallback kind. -/
def evalRules (rules : List ((PyExc → Bool) × ErrorKind)) (fallback : ErrorKind)
    (e : PyExc) : ErrorKind :=
  match rules with
  | [] => fallback
  | (p, k) :: rest => if p e then k else evalRules rest fallback e

/-! ## Saved-file layouts for comparison with the export code -/

/-- Modelled from the claim wording for the saved-file layout: a title
line, a separator line, the two language lines, a blank line, the
original-text block, a blank line, and the translation block, each line
ended by a newline. -/
def claimed_layout (source_lang target_lang source_text translation : String) :
    String :=
  "Phrase Bridge Translation" ++ "\n" ++
  ("=" ++ String.mk (List.replicate 30 (Char.ofNat 61))) ++ "\n" ++
  ("Source Language: " ++ source_lang) ++ "\n" ++
  ("Target Language: " ++ target_lang) ++ "\n" ++
  "" ++ "\n" ++
  "Original Text:" ++ "\n" ++ source_text ++ "\n" ++
  "" ++ "\n" ++
  "Translation:" ++ "\n" ++ translation ++ "\n"

/-- The claimed layout amended with the blank line the code actually
writes between the separator line and the source-language line. -/
def amended_layout (source_lang target_lang source_text translation : String) :
    String :=
  "Phrase Bridge Translation" ++ "\n" ++
  ("=" ++ String.mk (List.replicate 30 (Char.ofNat 61))) ++ "\n" ++
  "" ++ "\n" ++
  ("Source Language: " ++ source_lang) ++ "\n" ++
  ("Target Language: " ++ target_lang) ++ "\n" ++
  "" ++ "\n" ++
  "Original Text:" ++ "\n" ++ source_text ++ "\n" ++
  "" ++ "\n" ++
  "Translation:" ++ "\n" ++ translation ++ "\n"

/-- A fake backend that always succeeds with a fixed translation. -/
def fakeOkBackend : Backend :=
  fun _ _ _ => .ok "hola"

/-- A fake backend that always raises a generic exception with the given
message. -/
def fakeRaisingBackend (msg : String) : Backend :=
  fun _ _ _ => .error (.otherExc msg)

/-! ## Theorems -/

/-- Helper: if position `i` of `l` holds `x`, the predicate holds at `x`
and fails at every earlier position, then `find?` returns `x` — the
first match in declaration order wins. -/
theorem find_first_of_getElem {a : Type} (p : a → Bool) :
    ∀ (l : List a) (i : Nat) (x : a), l[i]? = some x → p x = true →
      (∀ j y, j < i → l[j]? = some y → p y = false) → l.find? p = some x := by
  intro l
  induction l with
  | nil => intro i x hx; simp at hx
  | cons hd tl ih =>
    intro i x hx hp hmin
    cases i with
    | zero =>
      simp at hx
      subst hx
      simp [List.find?, hp]
    | succ j =>
      have ha : p hd = false := hmin 0 hd (Nat.succ_pos j) (by simp)
      simp only [List.find?, ha]
      exact ih j x (by simpa using hx) hp
        (fun k y hk hky => hmin (k + 1) y (Nat.succ_lt_succ hk) (by simpa using hky))

/-- C5: for every registry name `n`, the composition
`codeForName ∘ nameForCode ∘ codeForName` is stable:
`get_language_code (get_language_name (get_language_code n))` equals
`get_language_code n`, including the Auto Detect sentinel. -/
theorem C5_roundtrip : ∀ n ∈ LANGUAGES.map Prod.fst,
    get_language_code (get_language_name (get_language_code n)) = get_language_code n := by
  decide

/-- Witness for C5 at the registry name Auto Detect. -/
theorem C5_roundtrip_witness :
    get_language_code (get_language_name (get_language_code "Auto Detect"))
      = get_language_code "Auto Detect" :=
  C5_roundtrip "Auto Detect" (by decide)

/-- C6: both lookups are total with fallback on miss — a name matching
no registry key (exactly, case-sensitively) yields the fallback code en,
a code matching no registry entry yields the fallback name English, and
a code that is present yields the first registry name carrying it in
declaration order. -/
theorem C6_lookup_totality :
    (∀ name : String, (∀ p ∈ LANGUAGES, p.1 ≠ name) → get_language_code name = "en")
    ∧ (∀ code : String, (∀ p ∈ LANGUAGES, p.2 ≠ code) → get_language_name code = "English")
    ∧ (∀ (code : String) (i : Nat) (entry : String × String),
        LANGUAGES[i]? = some entry → entry.2 = code →
        (∀ (j : Nat) (other : String × String),
          j < i → LANGUAGES[j]? = some other → other.2 ≠ code) →
        get_language_name code = entry.1) := by
  refine ⟨?_, ?_, ?_⟩
  · intro name h
    have hn : LANGUAGES.find? (fun p => p.1 = name) = none := by
      rw [List.find?_eq_none]
      intro x hx
      simp [h x hx]
    simp [get_language_code, hn]
  · intro code h
    have hn : LANGUAGES.find? (fun p => p.2 = code) = none := by
      rw [List.find?_eq_none]
      intro x hx
      simp [h x hx]
    simp [get_language_name, hn]
  · intro code i entry hget hcode hmin
    have hf : LANGUAGES.find? (fun p => p.2 = code) = some entry := by
      apply find_first_of_getElem _ LANGUAGES i entry hget
      · simp [hcode]
      · intro j y hj hjy
        simp [hmin j y hj hjy]
    simp [get_language_name, hf]

/-- Witness for C6: fallback code for an unknown name, fallback name for
the unknown code zz, and the declaration-order name for code es. -/
theorem C6_lookup_totality_witness :
    get_language_code "not a real language" = "en"
    ∧ get_language_name "zz" = "English"
    ∧ get_language_name "es" = "Spanish" := by
  refine ⟨C6_lookup_totality.1 "not a real language" (by decide),
          C6_lookup_totality.2.1 "zz" (by decide),
          C6_lookup_totality.2.2 "es" 2 ("Spanish", "es") (by decide) rfl ?_⟩
  intro j other hj hsome
  interval_cases j
  · rw [show LANGUAGES[0]? = some ("Auto Detect", "auto") from rfl] at hsome
    cases hsome
    decide
  · rw [show LANGUAGES[1]? = some ("English", "en") from rfl] at hsome
    cases hsome
    decide

/-- C7: `get_language_names` is in ascending lexicographic order, is a
permutation of all registry display names, and contains the Auto Detect
sentinel (so source listings include it), while the target-language
listing excludes the sentinel yet contains every other registry name. -/
theorem C7_names_listing :
    List.Pairwise (fun x y => strLe x y = true) get_language_names
    ∧ get_language_names.Perm (LANGUAGES.map Prod.fst)
    ∧ "Auto Detect" ∈ get_language_names
    ∧ "Auto Detect" ∉ target_language_values
    ∧ (∀ n ∈ LANGUAGES.map Prod.fst, n ≠ "Auto Detect" → n ∈ target_language_values) := by
  exact ⟨by decide, by decide, by decide, by decide, by decide⟩

/-- Witness for C7 at the registry name Spanish, which is not the
sentinel and therefore appears in the target listing. -/
theorem C7_names_listing_witness : "Spanish" ∈ target_language_values :=
  C7_names_listing.2.2.2.2 "Spanish" (by decide) (by decide)

/-- C8: `is_service_available` always returns a boolean (it is a total
function, never raises), and returns false whenever the canary backend
call raises, whatever the exception. -/
theorem C8_availability_total :
    (∀ backend : Backend,
      is_service_available backend = true ∨ is_service_available backend = false)
    ∧ (∀ (backend : Backend) (e : PyExc),
        backend "test" "en" "es" = .error e → is_service_available backend = false) := by
  constructor
  · intro backend
    cases h : is_service_available backend
    · exact Or.inr rfl
    · exact Or.inl rfl
  · intro backend e hb
    simp [is_service_available, hb]

/-- Witness for C8 with a backend that always raises. -/
theorem C8_availability_witness :
    is_service_available (fakeRaisingBackend "service down") = false :=
  C8_availability_total.2 (fakeRaisingBackend "service down") (.otherExc "service down") rfl

/-- C2: with valid text and identical non-auto source and target codes,
`translate_text` succeeds with the original text unchanged and the
backend call counter stays at zero, for every backend. -/
theorem C2_identity_short_circuit (backend : Backend) (text src : String)
    (h1 : (pyIsEmpty text || pyIsEmpty (pyStrip text)) = false)
    (h2 : ¬ pyLen text > max_chars)
    (h3 : src ≠ "auto") :
    translate_text backend text src src = (.success text, 0) := by
  simp [translate_text, h1, h2, h3]

/-- Witness for C2 at English-to-English hello. -/
theorem C2_identity_witness :
    translate_text fakeOkBackend "hello" "en" "en" = (.success "hello", 0) :=
  C2_identity_short_circuit fakeOkBackend "hello" "en" (by decide) (by decide) (by decide)

/-- C3: text that is empty after stripping is rejected as InvalidInput
with the exact validation message, and text longer than `max_chars` is
rejected as InvalidInput; in both cases the backend call counter stays
at zero, for every backend and every language-code pair. -/
theorem C3_validation_rejects (backend : Backend) (text src dst : String) :
    (pyIsEmpty (pyStrip text) = true →
      translate_text backend text src dst
        = (.failure .InvalidInput "Please enter text to translate", 0))
    ∧ (pyLen text > max_chars →
        (translate_text backend text src dst).1.isFailureOfKind .InvalidInput = true
        ∧ (translate_text backend text src dst).2 = 0) := by
  constructor
  · intro h
    simp [translate_text, h]
  · intro h
    by_cases htrim : (pyIsEmpty text || pyIsEmpty (pyStrip text)) = true
    · simp [translate_text, htrim, TransResult.isFailureOfKind]
    · simp [translate_text, htrim, h, TransResult.isFailureOfKind]

/-- Witness for C3: whitespace-only text, and a 5001-character text. -/
theorem C3_validation_witness :
    translate_text fakeOkBackend "   " "en" "es"
      = (.failure .InvalidInput "Please enter text to translate", 0)
    ∧ ((translate_text fakeOkBackend
          (String.mk (List.replicate 5001 (Char.ofNat 97))) "auto" "es").1.isFailureOfKind
          .InvalidInput = true
       ∧ (translate_text fakeOkBackend
          (String.mk (List.replicate 5001 (Char.ofNat 97))) "auto" "es").2 = 0) :=
  ⟨(C3_validation_rejects fakeOkBackend "   " "en" "es").1 (by decide),
   (C3_validation_rejects fakeOkBackend
      (String.mk (List.replicate 5001 (Char.ofNat 97))) "auto" "es").2
     (by
       have h : pyLen (String.mk (List.replicate 5001 (Char.ofNat 97))) = 5001 := by
         show (List.replicate 5001 (Char.ofNat 97)).length = 5001
         rw [List.length_replicate]
       rw [h]
       decide)⟩

/-- C10: for every backend behavior and every input, the raw pair
`(translated_text, error_message)` of `translate_text` has exactly one
non-None component: some text and no error, or no text and some error. -/
theorem C10_exactly_one_component (backend : Backend) (text src dst : String) :
    (∃ t, (translate_text backend text src dst).1.toPair = (some t, none))
    ∨ (∃ msg, (translate_text backend text src dst).1.toPair = (none, some msg)) := by
  cases h : (translate_text backend text src dst).1 with
  | success t => exact Or.inl ⟨t, rfl⟩
  | failure k m => exact Or.inr ⟨m, rfl⟩

/-- C4: the exception classification equals the top-to-bottom evaluation
of the ordered rule list (class rules first, then the message-substring
rules in code order, first match wins), and every exception that falls
through to UnknownError keeps the backend message verbatim after the
fixed prefix. -/
theorem C4_ordered_classification :
    (∀ e, (classify_exception e).1 = evalRules errorRules .UnknownError e)
    ∧ (∀ m, (classify_exception (.otherExc m)).1 = .UnknownError →
        (classify_exception (.otherExc m)).2 = "Translation failed: " ++ m) := by
  constructor
  · intro e
    cases e with
    | connectionError m => rfl
    | timeoutExc m => rfl
    | httpError m => rfl
    | otherExc m =>
      simp only [classify_exception, evalRules, errorRules, isConnectionError, isTimeoutExc,
        isHttpError, msgHasRateLimitText, msgHasAccessDeniedText, msgHasUnavailableText,
        PyExc.message, Bool.false_eq_true, if_false]
      split_ifs <;> rfl
  · intro m h
    simp only [classify_exception] at h ⊢
    split_ifs at h ⊢
    all_goals simp_all

/-- Witness for C4: an unmatched message falls through to the generic
failure text with the backend message preserved. -/
theorem C4_ordered_classification_witness :
    (classify_exception (.otherExc "boom")).2 = "Translation failed: " ++ "boom" :=
  C4_ordered_classification.2 "boom" (by decide)

/-- C1 counterexample: a `ConnectionError` whose message contains 429 is
classified as NetworkError, not RateLimited, so the classification is
not independent of the exception class. -/
theorem C1_counterexample :
    translate_text (fun _ _ _ => .error (.connectionError "HTTP Error 429: Too Many Requests"))
        "hello" "en" "es"
      = (.failure .NetworkError "Network error: Please check your internet connection", 1)
    ∧ strContainsSub (pyLower "HTTP Error 429: Too Many Requests") "429" = true
    ∧ (translate_text (fun _ _ _ => .error (.connectionError "HTTP Error 429: Too Many Requests"))
        "hello" "en" "es").1.isFailureOfKind .RateLimited = false := by
  refine ⟨by decide, by decide, by decide⟩

/-- C1 (amended): for every backend exception reaching the generic
handler (not one of the connection, timeout, or HTTP error classes)
whose lowercased message contains 429 or too many requests,
`translate_text` fails as RateLimited. -/
theorem C1_rate_limited_amended (backend : Backend) (text src dst m : String)
    (h1 : (pyIsEmpty text || pyIsEmpty (pyStrip text)) = false)
    (h2 : ¬ pyLen text > max_chars)
    (h3 : ¬ (src = dst ∧ src ≠ "auto"))
    (hb : backend text src dst = .error (.otherExc m))
    (hm : (strContainsSub (pyLower m) "429"
            || strContainsSub (pyLower m) "too many requests") = true) :
    translate_text backend text src dst
      = (.failure .RateLimited "Rate limit exceeded: Please wait a moment and try again", 1) := by
  simp [translate_text, h1, h2, h3, hb, classify_exception, hm]

/-- Witness for the amended C1 with a generic 429 exception. -/
theorem C1_rate_limited_witness :
    translate_text (fakeRaisingBackend "HTTP Error 429: Too Many Requests") "hello" "auto" "es"
      = (.failure .RateLimited "Rate limit exceeded: Please wait a moment and try again", 1) :=
  C1_rate_limited_amended (fakeRaisingBackend "HTTP Error 429: Too Many Requests")
    "hello" "auto" "es" "HTTP Error 429: Too Many Requests"
    (by decide) (by decide) (by decide) rfl (by decide)

/-- C9 counterexample: the file the code writes is not the claimed
layout — the code emits a blank line between the separator line and the
source-language line, which the claimed layout lacks, as the two line
listings show. -/
theorem C9_layout_counterexample :
    saved_translation_text "English" "Spanish" "hi" "hola"
        ≠ claimed_layout "English" "Spanish" "hi" "hola"
    ∧ pyLines (saved_translation_text "English" "Spanish" "hi" "hola")
        = ["Phrase Bridge Translation",
           "===============================",
           "",
           "Source Language: English",
           "Target Language: Spanish",
           "",
           "Original Text:",
           "hi",
           "",
           "Translation:",
           "hola",
           ""]
    ∧ pyLines (claimed_layout "English" "Spanish" "hi" "hola")
        = ["Phrase Bridge Translation",
           "===============================",
           "Source Language: English",
           "Target Language: Spanish",
           "",
           "Original Text:",
           "hi",
           "",
           "Translation:",
           "hola",
           ""] := by
  refine ⟨by decide, by decide, by decide⟩

/-- C9 (amended): for every saved translation the file consists of
exactly, in order: the title line, the separator line, a blank line,
the source-language line, the target-language line, a blank line, the
Original Text heading followed by the original text, a blank line, and
the Translation heading followed by the translated text, ending with a
newline. -/
theorem C9_layout_amended (sl tl ost tr : String) :
    saved_translation_text sl tl ost tr = amended_layout sl tl ost tr := by
  apply String.ext
  simp only [saved_translation_text, amended_layout, String.data_append, List.append_assoc]
  rfl

end PhraseBridge
